import Mathlib

/-!
Verification development for the 99Pay calculator repository.

The computation core consists of:
  * `calculate_daily_cdi` — annual CDI percent to effective daily rate,
    identical in all three source files;
  * `calculate_99pay_returns` — the tiered daily compounding projector,
    in three variants: the base file (no bonus, tier-1 multiplier fixed
    at 1.10), the v2 file and the cloud_v0 file (both with an additive
    bonus on the tier-1 multiplier);
  * the savings comparator: `calculate_savings_return` (base file, scalar)
    and `calculate_daily_savings_values` (v2 and cloud_v0 files, daily
    series; the two differ in when the monthly credit becomes visible);
  * the summary reduction performed by each file's calculate-button
    handler.

Real-number arithmetic of the source is modelled exactly: the projector
loops are polymorphic over a linear ordered field (instantiated at ℝ for
the full pipeline, where the daily rate is a real 365th root, and usable
at ℚ for concrete evaluation), and the savings functions, which only
ever multiply by 1.005, are modelled over ℚ.
-/

/-- One row of the daily ledger produced by `calculate_99pay_returns`
(source columns: Dia, Valor Inicial, Rendimento Faixa 1, Rendimento
Faixa 2, Rendimento Total Dia, Valor Final). -/
structure DailyRecord (K : Type) where
  day : ℕ
  start_balance : K
  tier1_yield : K
  tier2_yield : K
  total_yield : K
  end_balance : K

/-- `calculate_daily_cdi` from the source (identical in all three files):
`(1 + annual_cdi_percent / 100) ** (1 / 365) - 1`. -/
noncomputable def calculate_daily_cdi (annual_cdi_percent : ℝ) : ℝ :=
  (1 + annual_cdi_percent / 100) ^ ((1 : ℝ) / 365) - 1

/-- Loop body of `calculate_99pay_returns` in calculadora_99pay_streamlit.py
(the base variant): tier-1 multiplier fixed at 1.10, tier-2 at 0.80,
threshold 5000. The third argument is the running `current_value`, the
fourth the 1-based `day` counter, the last the remaining iteration count. -/
def baseLoop {K : Type} [LinearOrderedField K] (daily_cdi : K) :
    K → ℕ → ℕ → List (DailyRecord K)
  | _, _, 0 => []
  | current_value, day, fuel + 1 =>
      let day_start_value := current_value
      let tier1_value := min day_start_value 5000
      let tier2_value := max 0 (day_start_value - 5000)
      let tier1_yield := tier1_value * daily_cdi * (110 / 100 : K)
      let tier2_yield := tier2_value * daily_cdi * (80 / 100 : K)
      let total_daily_yield := tier1_yield + tier2_yield
      ⟨day, day_start_value, tier1_yield, tier2_yield, total_daily_yield,
        day_start_value + total_daily_yield⟩ ::
        baseLoop daily_cdi (day_start_value + total_daily_yield) (day + 1) fuel

/-- `calculate_99pay_returns(initial_investment, days, annual_cdi_percent)`
from calculadora_99pay_streamlit.py. -/
noncomputable def calculate_99pay_returns_base (initial_investment : ℝ)
    (days : ℕ) (annual_cdi_percent : ℝ) : List (DailyRecord ℝ) :=
  baseLoop (calculate_daily_cdi annual_cdi_percent) initial_investment 1 days

/-- Loop body of `calculate_99pay_returns` in
calculadora_99pay_streamlit_v2.py: `tier1_rate` is precomputed by the
wrapper, `limit_tier1 = 5000.0`. -/
def v2Loop {K : Type} [LinearOrderedField K] (daily_cdi tier1_rate : K) :
    K → ℕ → ℕ → List (DailyRecord K)
  | _, _, 0 => []
  | current_value, day, fuel + 1 =>
      let day_start_value := current_value
      let limit_tier1 : K := 5000
      let tier1_value := min day_start_value limit_tier1
      let tier2_value := max 0 (day_start_value - limit_tier1)
      let tier1_yield := tier1_value * daily_cdi * tier1_rate
      let tier2_yield := tier2_value * daily_cdi * (80 / 100 : K)
      let total_daily_yield := tier1_yield + tier2_yield
      ⟨day, day_start_value, tier1_yield, tier2_yield, total_daily_yield,
        day_start_value + total_daily_yield⟩ ::
        v2Loop daily_cdi tier1_rate (day_start_value + total_daily_yield) (day + 1) fuel

/-- `calculate_99pay_returns(initial_investment, days, annual_cdi_percent,
bonus_percent)` from calculadora_99pay_streamlit_v2.py, with
`tier1_rate = 1.10 + bonus_percent / 100`. -/
noncomputable def calculate_99pay_returns_v2 (initial_investment : ℝ)
    (days : ℕ) (annual_cdi_percent bonus_percent : ℝ) : List (DailyRecord ℝ) :=
  v2Loop (calculate_daily_cdi annual_cdi_percent)
    (110 / 100 + bonus_percent / 100) initial_investment 1 days

/-- Loop body of `calculate_99pay_returns` in
calculadora_99pay_streamlit_cloud_v0.py: `tier1_multiplier` precomputed
by the wrapper, tier bases `tier1_base = min(day_start, 5000.0)`,
`tier2_base = max(0.0, day_start - 5000.0)`. -/
def cloudLoop {K : Type} [LinearOrderedField K] (daily_cdi tier1_multiplier : K) :
    K → ℕ → ℕ → List (DailyRecord K)
  | _, _, 0 => []
  | current_value, day, fuel + 1 =>
      let day_start := current_value
      let tier1_base := min day_start 5000
      let tier2_base := max 0 (day_start - 5000)
      let tier1_yield := tier1_base * daily_cdi * tier1_multiplier
      let tier2_yield := tier2_base * daily_cdi * (80 / 100 : K)
      let total_yield := tier1_yield + tier2_yield
      ⟨day, day_start, tier1_yield, tier2_yield, total_yield,
        day_start + total_yield⟩ ::
        cloudLoop daily_cdi tier1_multiplier (day_start + total_yield) (day + 1) fuel

/-- `calculate_99pay_returns(initial_investment, days, annual_cdi_percent,
bonus_percent)` from calculadora_99pay_streamlit_cloud_v0.py, with
`tier1_multiplier = 1.10 + bonus_percent / 100.0`. -/
noncomputable def calculate_99pay_returns_cloud (initial_investment : ℝ)
    (days : ℕ) (annual_cdi_percent bonus_percent : ℝ) : List (DailyRecord ℝ) :=
  cloudLoop (calculate_daily_cdi annual_cdi_percent)
    (110 / 100 + bonus_percent / 100) initial_investment 1 days

/-- The record emitted for a day whose start balance is `c`, shared
shape of the three loop bodies (with the tier-1 multiplier abstracted). -/
def payRecord {K : Type} [LinearOrderedField K]
    (daily_cdi tier1_multiplier c : K) (day : ℕ) : DailyRecord K :=
  ⟨day, c, min c 5000 * daily_cdi * tier1_multiplier,
    max 0 (c - 5000) * daily_cdi * (80 / 100),
    min c 5000 * daily_cdi * tier1_multiplier
      + max 0 (c - 5000) * daily_cdi * (80 / 100),
    c + (min c 5000 * daily_cdi * tier1_multiplier
      + max 0 (c - 5000) * daily_cdi * (80 / 100))⟩

/-- The balance transition one loop iteration performs. -/
def payStep {K : Type} [LinearOrderedField K]
    (daily_cdi tier1_multiplier c : K) : K :=
  c + (min c 5000 * daily_cdi * tier1_multiplier
    + max 0 (c - 5000) * daily_cdi * (80 / 100))

/-- Loop body of `calculate_daily_savings_values` in
calculadora_99pay_streamlit_v2.py: the current value is appended FIRST,
then, on days divisible by 30, multiplied by `1 + 0.005`. -/
def savingsLoopV2 : ℚ → ℕ → ℕ → List ℚ
  | _, _, 0 => []
  | current_value, day, fuel + 1 =>
      current_value ::
        savingsLoopV2
          (if day % 30 = 0 then current_value * (1 + 5 / 1000) else current_value)
          (day + 1) fuel

/-- `calculate_daily_savings_values(initial_value, days)` from
calculadora_99pay_streamlit_v2.py. -/
def calculate_daily_savings_values_v2 (initial_value : ℚ) (days : ℕ) : List ℚ :=
  savingsLoopV2 initial_value 1 days

/-- Loop body of `calculate_daily_savings_values` in
calculadora_99pay_streamlit_cloud_v0.py: on days divisible by 30 the
current value is multiplied by `1 + 0.005` FIRST, then appended. -/
def savingsLoopCloud : ℚ → ℕ → ℕ → List ℚ
  | _, _, 0 => []
  | current_value, day, fuel + 1 =>
      let c := if day % 30 = 0 then current_value * (1 + 5 / 1000) else current_value
      c :: savingsLoopCloud c (day + 1) fuel

/-- `calculate_daily_savings_values(initial_value, days)` from
calculadora_99pay_streamlit_cloud_v0.py. -/
def calculate_daily_savings_values_cloud (initial_value : ℚ) (days : ℕ) : List ℚ :=
  savingsLoopCloud initial_value 1 days

/-- `calculate_savings_return(initial_value, days)` from
calculadora_99pay_streamlit.py: 0 for fewer than 30 days, otherwise
`initial_value * 1.005 ** (days // 30) - initial_value`. -/
def calculate_savings_return (initial_value : ℚ) (days : ℕ) : ℚ :=
  if days < 30 then 0
  else
    let monthly_rate : ℚ := 5 / 1000
    let num_cycles : ℕ := days / 30
    let final_value := initial_value * (1 + monthly_rate) ^ num_cycles
    final_value - initial_value

/-- Number of days `d` with `day ≤ d < day + i` for which the savings
loop's `d % 30 == 0` test fires. -/
def creditCount (day i : ℕ) : ℕ :=
  (List.range i).countP (fun j => (day + j) % 30 == 0)

/-- The 99Pay percent-yield reduction of the base file's calculate-button
handler: `final_value = results_df["Valor Final"].iloc[-1]`,
`total_yield = final_value - initial_investment`,
`percent_yield = (total_yield / initial_investment) * 100`. -/
noncomputable def handler_percent_yield_base (initial_investment : ℝ)
    (days : ℕ) (annual_cdi_percent : ℝ) : ℝ :=
  let results := calculate_99pay_returns_base initial_investment days annual_cdi_percent
  let final_value := (results.getLastD ⟨0, 0, 0, 0, 0, 0⟩).end_balance
  let total_yield := final_value - initial_investment
  (total_yield / initial_investment) * 100

/-- The 99Pay percent-yield reduction of the v2 file's calculate-button
handler (same formula, bonus-aware projector). -/
noncomputable def handler_percent_yield_v2 (initial_investment : ℝ)
    (days : ℕ) (annual_cdi_percent bonus_percent : ℝ) : ℝ :=
  let results :=
    calculate_99pay_returns_v2 initial_investment days annual_cdi_percent bonus_percent
  let final_value := (results.getLastD ⟨0, 0, 0, 0, 0, 0⟩).end_balance
  let total_yield := final_value - initial_investment
  (total_yield / initial_investment) * 100

/-- The 99Pay percent-yield reduction of the cloud_v0 file's
calculate-button handler (same formula, bonus-aware projector). -/
noncomputable def handler_percent_yield_cloud (initial_investment : ℝ)
    (days : ℕ) (annual_cdi_percent bonus_percent : ℝ) : ℝ :=
  let results :=
    calculate_99pay_returns_cloud initial_investment days annual_cdi_percent bonus_percent
  let final_value := (results.getLastD ⟨0, 0, 0, 0, 0, 0⟩).end_balance
  let total_yield := final_value - initial_investment
  (total_yield / initial_investment) * 100

/-- Savings percent yield the base file's handler displays: it always
shows a number (`some`), computed from `calculate_savings_return`, with
the `if initial_investment > 0 else 0` guard of the source. -/
def handler_savings_percent_base (initial_investment : ℚ) (days : ℕ) : Option ℚ :=
  let savings_yield := calculate_savings_return initial_investment days
  let savings_percent_yield :=
    if 0 < initial_investment then savings_yield / initial_investment * 100 else 0
  some savings_percent_yield

/-- Savings percent yield the v2 file's handler displays: `none` models
the "N/A" metric shown when `days < 30`; otherwise the percent computed
from the last element of the savings series (`savings_daily_values[-1]
if savings_daily_values else initial_investment`). -/
def handler_savings_percent_v2 (initial_investment : ℚ) (days : ℕ) : Option ℚ :=
  let savings_daily_values := calculate_daily_savings_values_v2 initial_investment days
  let savings_final_value := savings_daily_values.getLastD initial_investment
  let savings_yield := savings_final_value - initial_investment
  let savings_percent_yield :=
    if 0 < initial_investment then savings_yield / initial_investment * 100 else 0
  if 30 ≤ days then some savings_percent_yield else none

/-- Savings percent yield the cloud_v0 file's handler displays, with the
same `days >= 30` guard as v2 but the cloud_v0 savings series. -/
def handler_savings_percent_cloud (initial_investment : ℚ) (days : ℕ) : Option ℚ :=
  let savings_daily_values := calculate_daily_savings_values_cloud initial_investment days
  let savings_final_value := savings_daily_values.getLastD initial_investment
  let savings_yield := savings_final_value - initial_investment
  let savings_percent_yield :=
    if 0 < initial_investment then savings_yield / initial_investment * 100 else 0
  if 30 ≤ days then some savings_percent_yield else none

/-- The series invariants of spec §8 for a projector output: length,
first start balance, per-record accounting identities, and day-to-day
chaining of balances. -/
def seriesInvariant {K : Type} [LinearOrderedField K]
    (p : K) (days : ℕ) (s : List (DailyRecord K)) : Prop :=
  s.length = days ∧
  (∀ h0 : 0 < s.length, (s.get ⟨0, h0⟩).start_balance = p) ∧
  (∀ k (hk : k < s.length),
    (s.get ⟨k, hk⟩).end_balance
        = (s.get ⟨k, hk⟩).start_balance + (s.get ⟨k, hk⟩).total_yield ∧
      (s.get ⟨k, hk⟩).total_yield
        = (s.get ⟨k, hk⟩).tier1_yield + (s.get ⟨k, hk⟩).tier2_yield) ∧
  (∀ k (hk : k + 1 < s.length),
    (s.get ⟨k + 1, hk⟩).start_balance
      = (s.get ⟨k, Nat.lt_of_succ_lt hk⟩).end_balance)

/-! ### Loop characterization lemmas -/

lemma cloudLoop_succ {K : Type} [LinearOrderedField K] (d t c : K) (day fuel : ℕ) :
    cloudLoop d t c day (fuel + 1)
      = payRecord d t c day :: cloudLoop d t (payStep d t c) (day + 1) fuel := rfl

lemma cloudLoop_length {K : Type} [LinearOrderedField K] (d t : K) :
    ∀ (fuel : ℕ) (c : K) (day : ℕ), (cloudLoop d t c day fuel).length = fuel := by
  intro fuel
  induction fuel with
  | zero => intro c day; rfl
  | succ n ih => intro c day; rw [cloudLoop_succ, List.length_cons, ih]

lemma cloudLoop_getD {K : Type} [LinearOrderedField K] (d t : K) (dflt : DailyRecord K) :
    ∀ (fuel k : ℕ) (c : K) (day : ℕ), k < fuel →
      (cloudLoop d t c day fuel).getD k dflt
        = payRecord d t ((payStep d t)^[k] c) (day + k) := by
  intro fuel
  induction fuel with
  | zero => intro k c day h; omega
  | succ n ih =>
      intro k c day hk
      cases k with
      | zero => rw [cloudLoop_succ, List.getD_cons_zero]; rfl
      | succ k =>
          rw [cloudLoop_succ, List.getD_cons_succ,
            ih k (payStep d t c) (day + 1) (by omega),
            Function.iterate_succ_apply]
          congr 1
          omega

lemma v2Loop_succ {K : Type} [LinearOrderedField K] (d t c : K) (day fuel : ℕ) :
    v2Loop d t c day (fuel + 1)
      = payRecord d t c day :: v2Loop d t (payStep d t c) (day + 1) fuel := rfl

lemma v2Loop_eq_cloudLoop {K : Type} [LinearOrderedField K] (d t : K) :
    ∀ (fuel : ℕ) (c : K) (day : ℕ), v2Loop d t c day fuel = cloudLoop d t c day fuel := by
  intro fuel
  induction fuel with
  | zero => intro c day; rfl
  | succ n ih => intro c day; rw [v2Loop_succ, cloudLoop_succ, ih]

lemma baseLoop_succ {K : Type} [LinearOrderedField K] (d c : K) (day fuel : ℕ) :
    baseLoop d c day (fuel + 1)
      = payRecord d (110 / 100) c day
          :: baseLoop d (payStep d (110 / 100) c) (day + 1) fuel := rfl

lemma baseLoop_eq_cloudLoop {K : Type} [LinearOrderedField K] (d : K) :
    ∀ (fuel : ℕ) (c : K) (day : ℕ),
      baseLoop d c day fuel = cloudLoop d (110 / 100) c day fuel := by
  intro fuel
  induction fuel with
  | zero => intro c day; rfl
  | succ n ih => intro c day; rw [baseLoop_succ, cloudLoop_succ, ih]

/-! ### Positivity of one projector step -/

lemma payStep_lt {K : Type} [LinearOrderedField K] {d t c : K}
    (hd : 0 < d) (ht : 0 < t) (hc : 0 < c) : c < payStep d t c := by
  have h1 : 0 < min c 5000 := lt_min hc (by norm_num)
  have h2 : 0 < min c 5000 * d * t := mul_pos (mul_pos h1 hd) ht
  have h3 : (0 : K) ≤ max 0 (c - 5000) * d * (80 / 100) :=
    mul_nonneg (mul_nonneg (le_max_left 0 _) hd.le) (by norm_num)
  unfold payStep
  linarith

lemma payStep_iterate_pos {K : Type} [LinearOrderedField K] {d t c : K}
    (hd : 0 < d) (ht : 0 < t) (hc : 0 < c) (k : ℕ) : 0 < (payStep d t)^[k] c := by
  induction k with
  | zero => simpa using hc
  | succ n ih =>
      rw [Function.iterate_succ_apply']
      exact ih.trans (payStep_lt hd ht ih)

/-! ### Savings loop characterization -/

lemma savingsLoopV2_length :
    ∀ (fuel : ℕ) (c : ℚ) (day : ℕ), (savingsLoopV2 c day fuel).length = fuel := by
  intro fuel
  induction fuel with
  | zero => intro c day; rfl
  | succ n ih =>
      intro c day
      show (_ :: _).length = n + 1
      rw [List.length_cons, ih]

lemma savingsLoopCloud_length :
    ∀ (fuel : ℕ) (c : ℚ) (day : ℕ), (savingsLoopCloud c day fuel).length = fuel := by
  intro fuel
  induction fuel with
  | zero => intro c day; rfl
  | succ n ih =>
      intro c day
      show (_ :: _).length = n + 1
      rw [List.length_cons, ih]

lemma creditCount_succ_left (day i : ℕ) :
    creditCount day (i + 1)
      = (if day % 30 = 0 then 1 else 0) + creditCount (day + 1) i := by
  unfold creditCount
  rw [List.range_succ_eq_map, List.countP_cons, List.countP_map]
  have hfun : ((fun j => (day + j) % 30 == 0) ∘ Nat.succ)
      = fun j => (day + 1 + j) % 30 == 0 := by
    funext j
    show ((day + (j + 1)) % 30 == 0) = ((day + 1 + j) % 30 == 0)
    have : day + (j + 1) = day + 1 + j := by omega
    rw [this]
  rw [hfun]
  by_cases h : day % 30 = 0 <;> simp [h]
  omega

lemma creditCount_one : ∀ i : ℕ, creditCount 1 i = i / 30 := by
  intro i
  induction i with
  | zero => rfl
  | succ n ih =>
      unfold creditCount at ih ⊢
      rw [List.range_succ, List.countP_append, ih, Nat.succ_div]
      have hdvd : (30 ∣ n + 1) ↔ ((1 + n) % 30 = 0) := by
        rw [Nat.dvd_iff_mod_eq_zero]
        constructor <;> intro h <;> [skip; skip] <;> omega
      by_cases h : (1 + n) % 30 = 0
      · simp [h, hdvd.mpr h]
      · have h2 : ¬(30 ∣ n + 1) := fun hd => h (hdvd.mp hd)
        simp [h, h2]

lemma savingsLoopV2_getD :
    ∀ (fuel i : ℕ) (c : ℚ) (day : ℕ), i < fuel →
      (savingsLoopV2 c day fuel).getD i 0
        = c * (1 + 5 / 1000) ^ creditCount day i := by
  intro fuel
  induction fuel with
  | zero => intro i c day h; omega
  | succ n ih =>
      intro i c day hi
      cases i with
      | zero =>
          show (_ :: _).getD 0 0 = c * (1 + 5 / 1000) ^ creditCount day 0
          rw [List.getD_cons_zero]
          simp [creditCount]
      | succ i =>
          show (_ :: savingsLoopV2 _ (day + 1) n).getD (i + 1) 0 = _
          rw [List.getD_cons_succ, ih i _ (day + 1) (by omega),
            creditCount_succ_left]
          by_cases h : day % 30 = 0
          · simp only [h, if_pos rfl, if_true]
            ring_nf
          · simp only [h, if_neg h, if_false]
            ring_nf

lemma savingsLoopCloud_getD :
    ∀ (fuel i : ℕ) (c : ℚ) (day : ℕ), i < fuel →
      (savingsLoopCloud c day fuel).getD i 0
        = c * (1 + 5 / 1000) ^ creditCount day (i + 1) := by
  intro fuel
  induction fuel with
  | zero => intro i c day h; omega
  | succ n ih =>
      intro i c day hi
      cases i with
      | zero =>
          show (_ :: _).getD 0 0 = c * (1 + 5 / 1000) ^ creditCount day 1
          rw [List.getD_cons_zero, creditCount_succ_left]
          by_cases h : day % 30 = 0 <;> simp [h, creditCount]
      | succ i =>
          show (_ :: savingsLoopCloud _ (day + 1) n).getD (i + 1) 0 = _
          rw [List.getD_cons_succ, ih i _ (day + 1) (by omega),
            creditCount_succ_left day (i + 1)]
          by_cases h : day % 30 = 0
          · simp only [h, if_pos rfl, if_true]
            ring_nf
          · simp only [h, if_neg h, if_false]
            ring_nf

lemma calculate_daily_savings_values_v2_length (p : ℚ) (days : ℕ) :
    (calculate_daily_savings_values_v2 p days).length = days :=
  savingsLoopV2_length days p 1

lemma calculate_daily_savings_values_cloud_length (p : ℚ) (days : ℕ) :
    (calculate_daily_savings_values_cloud p days).length = days :=
  savingsLoopCloud_length days p 1

lemma calculate_daily_savings_values_v2_getD (p : ℚ) {days i : ℕ} (hi : i < days) :
    (calculate_daily_savings_values_v2 p days).getD i 0
      = p * (1 + 5 / 1000) ^ (i / 30) := by
  unfold calculate_daily_savings_values_v2
  rw [savingsLoopV2_getD days i p 1 hi, creditCount_one]

lemma calculate_daily_savings_values_cloud_getD (p : ℚ) {days i : ℕ} (hi : i < days) :
    (calculate_daily_savings_values_cloud p days).getD i 0
      = p * (1 + 5 / 1000) ^ ((i + 1) / 30) := by
  unfold calculate_daily_savings_values_cloud
  rw [savingsLoopCloud_getD days i p 1 hi, creditCount_one]

lemma cloudLoop_get {K : Type} [LinearOrderedField K] (d t : K) {fuel k : ℕ}
    (c : K) (day : ℕ) (hk : k < (cloudLoop d t c day fuel).length) :
    (cloudLoop d t c day fuel).get ⟨k, hk⟩
      = payRecord d t ((payStep d t)^[k] c) (day + k) := by
  rw [List.get_eq_getElem,
    ← List.getD_eq_getElem (cloudLoop d t c day fuel) ⟨0, 0, 0, 0, 0, 0⟩ hk]
  exact cloudLoop_getD d t _ fuel k c day (by rwa [cloudLoop_length] at hk)

lemma getLastD_eq_getD {α : Type} (l : List α) (d : α) (h : 0 < l.length) :
    l.getLastD d = l.getD (l.length - 1) d := by
  have hlen : l.length - 1 < l.length := by omega
  rw [List.getLastD_eq_getLast?, List.getLast?_eq_getElem?,
    List.getElem?_eq_getElem hlen, Option.getD_some,
    List.getD_eq_getElem l d hlen]

lemma calculate_99pay_returns_cloud_length (p : ℝ) (days : ℕ) (r b : ℝ) :
    (calculate_99pay_returns_cloud p days r b).length = days :=
  cloudLoop_length _ _ days p 1

lemma calculate_99pay_returns_v2_eq_cloud (p : ℝ) (days : ℕ) (r b : ℝ) :
    calculate_99pay_returns_v2 p days r b = calculate_99pay_returns_cloud p days r b :=
  v2Loop_eq_cloudLoop _ _ days p 1

lemma calculate_99pay_returns_base_eq_cloud (p : ℝ) (days : ℕ) (r : ℝ) :
    calculate_99pay_returns_base p days r
      = cloudLoop (calculate_daily_cdi r) (110 / 100) p 1 days :=
  baseLoop_eq_cloudLoop _ days p 1

lemma seriesInvariant_cloudLoop {K : Type} [LinearOrderedField K]
    (d t p : K) (days : ℕ) : seriesInvariant p days (cloudLoop d t p 1 days) := by
  refine ⟨cloudLoop_length d t days p 1, ?_, ?_, ?_⟩
  · intro h0
    rw [cloudLoop_get]
    simp [payRecord]
  · intro k hk
    rw [cloudLoop_get]
    exact ⟨rfl, rfl⟩
  · intro k hk
    rw [cloudLoop_get, cloudLoop_get]
    show (payStep d t)^[k + 1] p = _
    rw [Function.iterate_succ_apply']
    rfl

lemma calculate_daily_cdi_pos {r : ℝ} (hr : 0 < r) : 0 < calculate_daily_cdi r := by
  have hx : (1 : ℝ) < 1 + r / 100 := by linarith
  have h365 : (0 : ℝ) < 1 / 365 := by norm_num
  have h1 : (1 : ℝ) < (1 + r / 100) ^ ((1 : ℝ) / 365) :=
    (Real.one_lt_rpow_iff_of_pos (by linarith)).mpr (Or.inl ⟨hx, h365⟩)
  unfold calculate_daily_cdi
  linarith

lemma calculate_99pay_returns_base_length (p : ℝ) (days : ℕ) (r : ℝ) :
    (calculate_99pay_returns_base p days r).length = days := by
  rw [calculate_99pay_returns_base_eq_cloud]
  exact cloudLoop_length _ _ days p 1

lemma calculate_99pay_returns_v2_length (p : ℝ) (days : ℕ) (r b : ℝ) :
    (calculate_99pay_returns_v2 p days r b).length = days := by
  rw [calculate_99pay_returns_v2_eq_cloud]
  exact calculate_99pay_returns_cloud_length p days r b

lemma calculate_99pay_returns_cloud_get (p : ℝ) {days : ℕ} (r b : ℝ) {k : ℕ}
    (hk : k < (calculate_99pay_returns_cloud p days r b).length) :
    (calculate_99pay_returns_cloud p days r b).get ⟨k, hk⟩
      = payRecord (calculate_daily_cdi r) (110 / 100 + b / 100)
          ((payStep (calculate_daily_cdi r) (110 / 100 + b / 100))^[k] p) (1 + k) :=
  cloudLoop_get _ _ p 1 hk

lemma getD_default_irrel {α : Type} (l : List α) (d1 d2 : α) {n : ℕ}
    (h : n < l.length) : l.getD n d1 = l.getD n d2 := by
  rw [List.getD_eq_getElem l d1 h, List.getD_eq_getElem l d2 h]

lemma cloudLoop_start_lt_end {K : Type} [LinearOrderedField K] {d t p : K}
    (hd : 0 < d) (ht : 0 < t) (hp : 0 < p) {days k : ℕ}
    (hk : k < (cloudLoop d t p 1 days).length) :
    ((cloudLoop d t p 1 days).get ⟨k, hk⟩).start_balance
      < ((cloudLoop d t p 1 days).get ⟨k, hk⟩).end_balance := by
  rw [cloudLoop_get]
  exact payStep_lt hd ht (payStep_iterate_pos hd ht hp k)

/-! ### Claim theorems -/

/-- C1: for every principal > 0, days ≥ 1, annual rate > 0 and bonus ≥ 0,
each variant of `calculate_99pay_returns` returns a series of length
exactly `days` whose first record starts at the principal, in which every
record satisfies `end_balance = start_balance + total_yield` and
`total_yield = tier1_yield + tier2_yield`, and in which each record's
start balance is the previous record's end balance. -/
theorem C1_projection_series_invariants (p : ℝ) (days : ℕ) (r b : ℝ)
    (hp : 0 < p) (hd : 1 ≤ days) (hr : 0 < r) (hb : 0 ≤ b) :
    seriesInvariant p days (calculate_99pay_returns_base p days r) ∧
    seriesInvariant p days (calculate_99pay_returns_v2 p days r b) ∧
    seriesInvariant p days (calculate_99pay_returns_cloud p days r b) := by
  refine ⟨?_, ?_, ?_⟩
  · rw [calculate_99pay_returns_base_eq_cloud]
    exact seriesInvariant_cloudLoop _ _ p days
  · rw [calculate_99pay_returns_v2_eq_cloud]
    exact seriesInvariant_cloudLoop _ _ p days
  · exact seriesInvariant_cloudLoop _ _ p days

/-- Witness for C1 at principal 1000, 3 days, rate 10%, bonus 0. -/
theorem C1_projection_series_invariants_witness :
    seriesInvariant (1000 : ℝ) 3 (calculate_99pay_returns_base 1000 3 10) ∧
    seriesInvariant (1000 : ℝ) 3 (calculate_99pay_returns_v2 1000 3 10 0) ∧
    seriesInvariant (1000 : ℝ) 3 (calculate_99pay_returns_cloud 1000 3 10 0) :=
  C1_projection_series_invariants 1000 3 10 0 (by norm_num) (by norm_num)
    (by norm_num) (by norm_num)

/-- C5: the daily rate round-trips to the annual rate: raising
`1 + calculate_daily_cdi r` to the 365th power recovers `1 + r / 100`
exactly in the real-number model, i.e. the converter computes
`(1 + r / 100) ^ (1 / 365) - 1`. -/
theorem C5_daily_rate_round_trip (r : ℝ) (hr : 0 < r) :
    (1 + calculate_daily_cdi r) ^ (365 : ℕ) = 1 + r / 100 := by
  have hx : (0 : ℝ) ≤ 1 + r / 100 := by linarith
  have h1 : (1 : ℝ) + calculate_daily_cdi r = (1 + r / 100) ^ ((1 : ℝ) / 365) := by
    unfold calculate_daily_cdi
    ring
  rw [h1, ← Real.rpow_natCast ((1 + r / 100) ^ ((1 : ℝ) / 365)) 365,
    ← Real.rpow_mul hx]
  norm_num

/-- Witness for C5 at the rate 11.15. -/
theorem C5_daily_rate_round_trip_witness :
    (1 + calculate_daily_cdi (1115 / 100)) ^ (365 : ℕ) = 1 + (1115 / 100) / 100 :=
  C5_daily_rate_round_trip (1115 / 100) (by norm_num)

/-- C10: with `bonus_percent = 0`, the v2 and cloud_v0 projectors produce
exactly the same daily series as the base variant's three-argument
projector (hence the same start balance, tier yields, total yield and end
balance on every day). -/
theorem C10_variants_agree_without_bonus (p : ℝ) (days : ℕ) (r : ℝ)
    (hp : 0 < p) (hd : 1 ≤ days) (hr : 0 < r) :
    calculate_99pay_returns_v2 p days r 0 = calculate_99pay_returns_base p days r ∧
    calculate_99pay_returns_cloud p days r 0 = calculate_99pay_returns_base p days r := by
  have h : (110 / 100 + (0 : ℝ) / 100) = 110 / 100 := by norm_num
  constructor
  · rw [calculate_99pay_returns_v2_eq_cloud, calculate_99pay_returns_base_eq_cloud]
    show cloudLoop _ (110 / 100 + (0 : ℝ) / 100) _ _ _ = _
    rw [h]
  · rw [calculate_99pay_returns_base_eq_cloud]
    show cloudLoop _ (110 / 100 + (0 : ℝ) / 100) _ _ _ = _
    rw [h]

/-- Witness for C10 at principal 1000, 30 days, rate 10%. -/
theorem C10_variants_agree_without_bonus_witness :
    calculate_99pay_returns_v2 1000 30 10 0 = calculate_99pay_returns_base 1000 30 10 ∧
    calculate_99pay_returns_cloud 1000 30 10 0 = calculate_99pay_returns_base 1000 30 10 :=
  C10_variants_agree_without_bonus 1000 30 10 (by norm_num) (by norm_num) (by norm_num)

/-- C6: for positive principal and rate (and nonnegative bonus), every
record of every variant's series has `end_balance` strictly greater than
`start_balance`. -/
theorem C6_balance_strictly_increases (p : ℝ) (days : ℕ) (r b : ℝ)
    (hp : 0 < p) (hd : 1 ≤ days) (hr : 0 < r) (hb : 0 ≤ b) :
    (∀ k (hk : k < (calculate_99pay_returns_base p days r).length),
      ((calculate_99pay_returns_base p days r).get ⟨k, hk⟩).start_balance
        < ((calculate_99pay_returns_base p days r).get ⟨k, hk⟩).end_balance) ∧
    (∀ k (hk : k < (calculate_99pay_returns_v2 p days r b).length),
      ((calculate_99pay_returns_v2 p days r b).get ⟨k, hk⟩).start_balance
        < ((calculate_99pay_returns_v2 p days r b).get ⟨k, hk⟩).end_balance) ∧
    (∀ k (hk : k < (calculate_99pay_returns_cloud p days r b).length),
      ((calculate_99pay_returns_cloud p days r b).get ⟨k, hk⟩).start_balance
        < ((calculate_99pay_returns_cloud p days r b).get ⟨k, hk⟩).end_balance) := by
  have hd0 : 0 < calculate_daily_cdi r := calculate_daily_cdi_pos hr
  have hb100 : (0 : ℝ) ≤ b / 100 := div_nonneg hb (by norm_num)
  have ht : (0 : ℝ) < 110 / 100 + b / 100 := by linarith
  have ht0 : (0 : ℝ) < 110 / 100 := by norm_num
  refine ⟨?_, ?_, ?_⟩
  · rw [calculate_99pay_returns_base_eq_cloud]
    intro k hk
    exact cloudLoop_start_lt_end hd0 ht0 hp hk
  · rw [calculate_99pay_returns_v2_eq_cloud]
    intro k hk
    exact cloudLoop_start_lt_end hd0 ht hp hk
  · intro k hk
    exact cloudLoop_start_lt_end hd0 ht hp hk

/-- C6 witness: the day-1 record of the cloud_v0 series for principal
1000, 2 days, rate 10%, bonus 0 strictly increases. -/
theorem C6_balance_strictly_increases_witness :
    ((calculate_99pay_returns_cloud (1000 : ℝ) 2 10 0).get
        ⟨0, by rw [calculate_99pay_returns_cloud_length]; norm_num⟩).start_balance
      < ((calculate_99pay_returns_cloud (1000 : ℝ) 2 10 0).get
        ⟨0, by rw [calculate_99pay_returns_cloud_length]; norm_num⟩).end_balance :=
  (C6_balance_strictly_increases 1000 2 10 0 (by norm_num) (by norm_num)
    (by norm_num) (by norm_num)).2.2 0 _

/-- C2: for every record of every variant's series, the tier bases the
loop computes from the day's start balance — `min(start, 5000)` and
`max(0, start - 5000)`, with the threshold the fixed constant 5000 —
add up to the start balance, the tier-1 base is at most 5000, and the
tier-2 base is nonnegative. -/
theorem C2_tier_split_invariant (p : ℝ) (days : ℕ) (r b : ℝ)
    (rec : DailyRecord ℝ)
    (hmem : rec ∈ calculate_99pay_returns_base p days r
      ∨ rec ∈ calculate_99pay_returns_v2 p days r b
      ∨ rec ∈ calculate_99pay_returns_cloud p days r b) :
    min rec.start_balance 5000 + max 0 (rec.start_balance - 5000) = rec.start_balance ∧
    min rec.start_balance 5000 ≤ 5000 ∧
    0 ≤ max 0 (rec.start_balance - 5000) := by
  refine ⟨?_, min_le_right _ _, le_max_left _ _⟩
  rcases le_total rec.start_balance 5000 with h | h
  · rw [min_eq_left h, max_eq_left (by linarith)]
    ring
  · rw [min_eq_right h, max_eq_right (by linarith)]
    ring

/-- C2 witness: the single record of the cloud_v0 series for principal
1000, 1 day, rate 10%, bonus 0. -/
theorem C2_tier_split_invariant_witness :
    min (payRecord (calculate_daily_cdi 10) (110 / 100 + 0 / 100) (1000 : ℝ) 1).start_balance 5000
        + max 0 ((payRecord (calculate_daily_cdi 10) (110 / 100 + 0 / 100) (1000 : ℝ) 1).start_balance - 5000)
      = (payRecord (calculate_daily_cdi 10) (110 / 100 + 0 / 100) (1000 : ℝ) 1).start_balance ∧
    min (payRecord (calculate_daily_cdi 10) (110 / 100 + 0 / 100) (1000 : ℝ) 1).start_balance 5000 ≤ 5000 ∧
    0 ≤ max 0 ((payRecord (calculate_daily_cdi 10) (110 / 100 + 0 / 100) (1000 : ℝ) 1).start_balance - 5000) :=
  C2_tier_split_invariant 1000 1 10 0
    (payRecord (calculate_daily_cdi 10) (110 / 100 + 0 / 100) 1000 1)
    (Or.inr (Or.inr (List.mem_singleton.mpr rfl)))

/-- C3: in the v2 and cloud_v0 variants, every record's tier-1 yield is
`tier1_base * daily_rate * (1.10 + bonus/100)` and tier-2 yield is
`tier2_base * daily_rate * 0.80`; at `bonus = 10` the tier-1 multiplier
becomes 1.20 while the tier-2 multiplier stays 0.80. -/
theorem C3_tier_yield_formulas (p : ℝ) (days : ℕ) (r b : ℝ) (hb : 0 ≤ b) :
    (∀ k (hk : k < (calculate_99pay_returns_v2 p days r b).length),
      ((calculate_99pay_returns_v2 p days r b).get ⟨k, hk⟩).tier1_yield
          = min ((calculate_99pay_returns_v2 p days r b).get ⟨k, hk⟩).start_balance 5000
              * calculate_daily_cdi r * (110 / 100 + b / 100) ∧
        ((calculate_99pay_returns_v2 p days r b).get ⟨k, hk⟩).tier2_yield
          = max 0 (((calculate_99pay_returns_v2 p days r b).get ⟨k, hk⟩).start_balance - 5000)
              * calculate_daily_cdi r * (80 / 100)) ∧
    (∀ k (hk : k < (calculate_99pay_returns_cloud p days r b).length),
      ((calculate_99pay_returns_cloud p days r b).get ⟨k, hk⟩).tier1_yield
          = min ((calculate_99pay_returns_cloud p days r b).get ⟨k, hk⟩).start_balance 5000
              * calculate_daily_cdi r * (110 / 100 + b / 100) ∧
        ((calculate_99pay_returns_cloud p days r b).get ⟨k, hk⟩).tier2_yield
          = max 0 (((calculate_99pay_returns_cloud p days r b).get ⟨k, hk⟩).start_balance - 5000)
              * calculate_daily_cdi r * (80 / 100)) ∧
    (∀ k (hk : k < (calculate_99pay_returns_v2 p days r 10).length),
      ((calculate_99pay_returns_v2 p days r 10).get ⟨k, hk⟩).tier1_yield
        = min ((calculate_99pay_returns_v2 p days r 10).get ⟨k, hk⟩).start_balance 5000
            * calculate_daily_cdi r * (120 / 100)) ∧
    (∀ k (hk : k < (calculate_99pay_returns_cloud p days r 10).length),
      ((calculate_99pay_returns_cloud p days r 10).get ⟨k, hk⟩).tier1_yield
        = min ((calculate_99pay_returns_cloud p days r 10).get ⟨k, hk⟩).start_balance 5000
            * calculate_daily_cdi r * (120 / 100)) := by
  have h10 : (110 / 100 + (10 : ℝ) / 100) = 120 / 100 := by norm_num
  refine ⟨?_, ?_, ?_, ?_⟩
  · rw [calculate_99pay_returns_v2_eq_cloud]
    intro k hk
    rw [calculate_99pay_returns_cloud_get]
    exact ⟨rfl, rfl⟩
  · intro k hk
    rw [calculate_99pay_returns_cloud_get]
    exact ⟨rfl, rfl⟩
  · rw [calculate_99pay_returns_v2_eq_cloud]
    intro k hk
    rw [calculate_99pay_returns_cloud_get, ← h10]
    rfl
  · intro k hk
    rw [calculate_99pay_returns_cloud_get, ← h10]
    rfl

/-- C3 witness: the tier-1 yield formula at bonus 10, day-1 record,
principal 1000, 1 day, rate 10%. -/
theorem C3_tier_yield_formulas_witness :
    ((calculate_99pay_returns_cloud (1000 : ℝ) 1 10 10).get
        ⟨0, by rw [calculate_99pay_returns_cloud_length]; norm_num⟩).tier1_yield
      = min ((calculate_99pay_returns_cloud (1000 : ℝ) 1 10 10).get
            ⟨0, by rw [calculate_99pay_returns_cloud_length]; norm_num⟩).start_balance 5000
          * calculate_daily_cdi 10 * (120 / 100) :=
  (C3_tier_yield_formulas 1000 1 10 10 (by norm_num)).2.2.2 0 _

/-- C7: for 1 ≤ days < 30, both daily savings variants return a series of
length exactly `days` in which every entry equals the principal. -/
theorem C7_savings_constant_before_30_days (p : ℚ) (days : ℕ)
    (hp : 0 < p) (h1 : 1 ≤ days) (h30 : days < 30) :
    (calculate_daily_savings_values_v2 p days).length = days ∧
    (calculate_daily_savings_values_cloud p days).length = days ∧
    (∀ i (hi : i < (calculate_daily_savings_values_v2 p days).length),
      (calculate_daily_savings_values_v2 p days).get ⟨i, hi⟩ = p) ∧
    (∀ i (hi : i < (calculate_daily_savings_values_cloud p days).length),
      (calculate_daily_savings_values_cloud p days).get ⟨i, hi⟩ = p) := by
  refine ⟨calculate_daily_savings_values_v2_length p days,
    calculate_daily_savings_values_cloud_length p days, ?_, ?_⟩
  · intro i hi
    have hi2 : i < days := by
      rwa [calculate_daily_savings_values_v2_length] at hi
    rw [List.get_eq_getElem, ← List.getD_eq_getElem _ 0 hi,
      calculate_daily_savings_values_v2_getD p hi2,
      Nat.div_eq_of_lt (by omega), pow_zero, mul_one]
  · intro i hi
    have hi2 : i < days := by
      rwa [calculate_daily_savings_values_cloud_length] at hi
    rw [List.get_eq_getElem, ← List.getD_eq_getElem _ 0 hi,
      calculate_daily_savings_values_cloud_getD p hi2,
      Nat.div_eq_of_lt (by omega), pow_zero, mul_one]

/-- C7 witness: entry 5 of the cloud_v0 savings series for principal
1000 over 10 days equals the principal. -/
theorem C7_savings_constant_before_30_days_witness :
    (calculate_daily_savings_values_cloud 1000 10).get
        ⟨5, by rw [calculate_daily_savings_values_cloud_length]; norm_num⟩ = 1000 :=
  (C7_savings_constant_before_30_days 1000 10 (by norm_num) (by norm_num)
    (by norm_num)).2.2.2 5 _

/-- C4 counterexample: in the v2 variant, for principal 1000 and
days = 30, the entry at 0-based index 29 is still 1000, not
1000 * 1.005 = 1005 as the claim requires of the savings series. -/
theorem C4_counterexample_v2_entry29 :
    (calculate_daily_savings_values_v2 1000 30).getD 29 0 = 1000 ∧
    (calculate_daily_savings_values_v2 1000 30).getD 29 0 ≠ 1005 := by
  have h : (calculate_daily_savings_values_v2 1000 30).getD 29 0 = 1000 := by
    rw [calculate_daily_savings_values_v2_getD 1000 (by norm_num : (29 : ℕ) < 30),
      Nat.div_eq_of_lt (by omega), pow_zero, mul_one]
  refine ⟨h, ?_⟩
  rw [h]
  norm_num

/-- C4 (amended): the cloud_v0 savings series uses credit-then-record
semantics — entry `i` equals `principal * 1.005 ^ ((i + 1) / 30)`, so for
principal 1000 and days = 30 entries 0..28 equal 1000 and entry 29 equals
1005 — while the v2 savings series records before crediting: entry `i`
equals `principal * 1.005 ^ (i / 30)`, so entry 29 stays 1000 and the
monthly credit only becomes visible from entry 30 on. -/
theorem C4_savings_credit_timing (p : ℚ) (days i : ℕ)
    (hp : 0 < p) (hi : i < days) :
    (calculate_daily_savings_values_cloud p days).getD i 0
        = p * (1 + 5 / 1000) ^ ((i + 1) / 30) ∧
    (calculate_daily_savings_values_v2 p days).getD i 0
        = p * (1 + 5 / 1000) ^ (i / 30) :=
  ⟨calculate_daily_savings_values_cloud_getD p hi,
    calculate_daily_savings_values_v2_getD p hi⟩

/-- C4 witness: at principal 1000, days = 30, index 29 the cloud_v0
entry is 1000 * 1.005 ^ 1 = 1005 and the v2 entry is 1000 * 1.005 ^ 0
= 1000. -/
theorem C4_savings_credit_timing_witness :
    (calculate_daily_savings_values_cloud 1000 30).getD 29 0
        = 1000 * (1 + 5 / 1000) ^ ((29 + 1) / 30 : ℕ) ∧
    (calculate_daily_savings_values_v2 1000 30).getD 29 0
        = 1000 * (1 + 5 / 1000) ^ ((29 : ℕ) / 30) :=
  C4_savings_credit_timing 1000 30 29 (by norm_num) (by norm_num)

/-- C9: the base file's scalar `calculate_savings_return` equals the last
element of the cloud_v0 daily savings series minus the initial value, and
that last element is `initial_value * 1.005 ^ (days / 30)` (integer
division), so fewer than 30 days give zero yield. -/
theorem C9_base_savings_refines_cloud_series (initial_value : ℚ) (days : ℕ)
    (hv : 0 < initial_value) (hd : 1 ≤ days) :
    calculate_savings_return initial_value days
        = (calculate_daily_savings_values_cloud initial_value days).getLastD initial_value
            - initial_value ∧
    (calculate_daily_savings_values_cloud initial_value days).getLastD initial_value
        = initial_value * (1 + 5 / 1000) ^ (days / 30) := by
  have hlen := calculate_daily_savings_values_cloud_length initial_value days
  have hpos : 0 < (calculate_daily_savings_values_cloud initial_value days).length := by
    omega
  have hidx : days - 1 < (calculate_daily_savings_values_cloud initial_value days).length := by
    omega
  have hlast : (calculate_daily_savings_values_cloud initial_value days).getLastD initial_value
      = initial_value * (1 + 5 / 1000) ^ (days / 30) := by
    rw [getLastD_eq_getD _ _ hpos,
      getD_default_irrel _ initial_value 0 (by omega), hlen,
      calculate_daily_savings_values_cloud_getD initial_value
        (by omega : days - 1 < days)]
    congr 2
    omega
  refine ⟨?_, hlast⟩
  rw [hlast]
  unfold calculate_savings_return
  by_cases h : days < 30
  · rw [if_pos h, Nat.div_eq_of_lt h, pow_zero, mul_one]
    ring
  · rw [if_neg h]

/-- C9 witness: at initial value 1000 and 60 days, the base scalar yield
equals the last cloud_v0 series element minus 1000, which is
1000 * 1.005 ^ 2. -/
theorem C9_base_savings_refines_cloud_series_witness :
    calculate_savings_return 1000 60
        = (calculate_daily_savings_values_cloud 1000 60).getLastD 1000 - 1000 ∧
    (calculate_daily_savings_values_cloud 1000 60).getLastD 1000
        = 1000 * (1 + 5 / 1000) ^ ((60 : ℕ) / 30) :=
  C9_base_savings_refines_cloud_series 1000 60 (by norm_num) (by norm_num)

/-- C8 counterexample: for principal 1000 and days = 10 (< 30), the base
file's handler reports the savings percent yield as the number 0, not as
an undefined / not-applicable value. -/
theorem C8_counterexample_base_savings_zero :
    handler_savings_percent_base 1000 10 = some 0 ∧
    handler_savings_percent_base 1000 10 ≠ none := by
  have h : handler_savings_percent_base 1000 10 = some 0 := by
    unfold handler_savings_percent_base calculate_savings_return
    norm_num
  exact ⟨h, by rw [h]; exact Option.some_ne_none 0⟩

/-- C8 (amended): every variant's handler computes the 99Pay percent
yield as `(final - principal) / principal * 100` where `final` is the
end balance of the record at index `days - 1`; for the savings side the
v2 and cloud_v0 handlers report "N/A" (`none`) when `days < 30`, but the
base handler reports the number 0 instead. -/
theorem C8_summary_reduction (p : ℝ) (q : ℚ) (days : ℕ) (r b : ℝ)
    (hdays : 1 ≤ days) :
    handler_percent_yield_base p days r
        = (((calculate_99pay_returns_base p days r).getD (days - 1)
              ⟨0, 0, 0, 0, 0, 0⟩).end_balance - p) / p * 100 ∧
    handler_percent_yield_v2 p days r b
        = (((calculate_99pay_returns_v2 p days r b).getD (days - 1)
              ⟨0, 0, 0, 0, 0, 0⟩).end_balance - p) / p * 100 ∧
    handler_percent_yield_cloud p days r b
        = (((calculate_99pay_returns_cloud p days r b).getD (days - 1)
              ⟨0, 0, 0, 0, 0, 0⟩).end_balance - p) / p * 100 ∧
    (days < 30 → handler_savings_percent_v2 q days = none) ∧
    (days < 30 → handler_savings_percent_cloud q days = none) ∧
    (days < 30 → 0 < q → handler_savings_percent_base q days = some 0) := by
  refine ⟨?_, ?_, ?_, ?_, ?_, ?_⟩
  · have hpos : 0 < (calculate_99pay_returns_base p days r).length := by
      rw [calculate_99pay_returns_base_length]
      omega
    show (((calculate_99pay_returns_base p days r).getLastD
        ⟨0, 0, 0, 0, 0, 0⟩).end_balance - p) / p * 100 = _
    rw [getLastD_eq_getD _ _ hpos, calculate_99pay_returns_base_length]
  · have hpos : 0 < (calculate_99pay_returns_v2 p days r b).length := by
      rw [calculate_99pay_returns_v2_length]
      omega
    show (((calculate_99pay_returns_v2 p days r b).getLastD
        ⟨0, 0, 0, 0, 0, 0⟩).end_balance - p) / p * 100 = _
    rw [getLastD_eq_getD _ _ hpos, calculate_99pay_returns_v2_length]
  · have hpos : 0 < (calculate_99pay_returns_cloud p days r b).length := by
      rw [calculate_99pay_returns_cloud_length]
      omega
    show (((calculate_99pay_returns_cloud p days r b).getLastD
        ⟨0, 0, 0, 0, 0, 0⟩).end_balance - p) / p * 100 = _
    rw [getLastD_eq_getD _ _ hpos, calculate_99pay_returns_cloud_length]
  · intro h30
    unfold handler_savings_percent_v2
    rw [if_neg (by omega)]
  · intro h30
    unfold handler_savings_percent_cloud
    rw [if_neg (by omega)]
  · intro h30 hq
    unfold handler_savings_percent_base calculate_savings_return
    rw [if_pos h30]
    simp [hq]

/-- C8 witness: at principal 1000, 10 days, rate 10%, bonus 0. -/
theorem C8_summary_reduction_witness :
    handler_percent_yield_base 1000 10 10
        = (((calculate_99pay_returns_base 1000 10 10).getD (10 - 1)
              ⟨0, 0, 0, 0, 0, 0⟩).end_balance - 1000) / 1000 * 100 ∧
    handler_percent_yield_v2 1000 10 10 0
        = (((calculate_99pay_returns_v2 1000 10 10 0).getD (10 - 1)
              ⟨0, 0, 0, 0, 0, 0⟩).end_balance - 1000) / 1000 * 100 ∧
    handler_percent_yield_cloud 1000 10 10 0
        = (((calculate_99pay_returns_cloud 1000 10 10 0).getD (10 - 1)
              ⟨0, 0, 0, 0, 0, 0⟩).end_balance - 1000) / 1000 * 100 ∧
    ((10 : ℕ) < 30 → handler_savings_percent_v2 1000 10 = none) ∧
    ((10 : ℕ) < 30 → handler_savings_percent_cloud 1000 10 = none) ∧
    ((10 : ℕ) < 30 → (0 : ℚ) < 1000 → handler_savings_percent_base 1000 10 = some 0) :=
  C8_summary_reduction 1000 1000 10 10 0 (by norm_num)
